import Mathlib

/-!
A shallow embedding of the maptiler-attribution-checker repository
(src/web_crawler.py, src/attribution_checker.py, src/map_detector.py)
together with theorems about the crawl orchestration, the politeness
cache, the result aggregation and the detector's analysis construction.

The crawler's network and browser effects are abstracted into a `World`
record of oracles (origin derivation, robots documents, the attribution
checker's per-URL outcome, page fetches and link extraction); the wave
loop of `MapTilerWebCrawler.crawl` is modelled sequentially (the Python
code dispatches each wave through a thread pool and joins it at a barrier
before the next frontier is formed, so each wave's observable effect on
the visited set, the robots cache and the result list is that of running
its distinct URLs one after the other).  The model additionally records a
trace of `Event`s (dispatches, claims, robots fetches, page fetches,
wave starts) so that scheduling properties can be stated.
-/

namespace Maptiler

/-! ### Python string primitives -/

/-- Character-list version of Python str.startswith. -/
def charsStartWith : List Char → List Char → Bool
  | [], _ => true
  | _ :: _, [] => false
  | p :: ps, c :: cs => p == c && charsStartWith ps cs

/-- Occurrence of a character pattern anywhere in a character list. -/
def charsOccur (pat : List Char) : List Char → Bool
  | [] => charsStartWith pat []
  | c :: cs => charsStartWith pat (c :: cs) || charsOccur pat cs

/-- Python substring membership test: pat in s. -/
def pyIn (pat s : String) : Bool := charsOccur pat.data s.data

/-! ### attribution_checker.py : MapTilerAttributionChecker -/

/-- Per-library data returned by the JavaScript probe in `_get_js_variables`. -/
structure LibInfo where
  present : Bool
  version : Option String
  containers : Nat
  deriving DecidableEq

/-- The libraryInfo dictionary of `_get_js_variables`. -/
structure LibraryInfo where
  leaflet : LibInfo
  openlayers : LibInfo
  deriving DecidableEq

/-- Python library_info.get(library, dict()) for the two keys the loop uses. -/
def LibraryInfo.get (li : LibraryInfo) : String → LibInfo
  | "leaflet" => li.leaflet
  | "openlayers" => li.openlayers
  | _ => { present := false, version := none, containers := 0 }

/-- The value returned by `_get_js_variables` (script srcs, tile URLs, library info). -/
structure JsVariables where
  mapUrls : List String
  tileUrls : List String
  libraryInfo : LibraryInfo
  deriving DecidableEq

/-- library_patterns of `_check_map_usage` (dict iteration order: leaflet, openlayers). -/
def library_patterns : List (String × List String) :=
  [("leaflet",
    ["leaflet.js", "L.tileLayer", "class=\"leaflet-", "leaflet.css", "L.map(",
     "leaflet-container"]),
   ("openlayers",
    ["ol.js", "ol/Map", "class=\"ol-", "ol.css", "new ol.Map", "ol-map",
     "ol.source.XYZ"])]

/-- maptiler_patterns of `_check_map_usage`.  The fifth entry is used with the
Python substring operator in the source, so it is a literal here as well. -/
def maptiler_patterns : List String :=
  ["api.maptiler.com", "maps.maptiler.com", ".maptiler.com/maps/",
   ".maptiler.com/tiles/", "key=[a-zA-Z0-9]+", "maptiler",
   "tileserver.maptiler.com"]

/-- sdk_indicators of `_check_map_usage`. -/
def sdk_indicators : List String := ["@maptiler/sdk", "maptilersdk", "maptiler-sdk"]

/-- maptiler_attribution patterns of `_check_attribution`. -/
def maptiler_attribution : List String :=
  ["maptiler", "© maptiler", "mapTiler", "© MapTiler", "MapTiler Cloud"]

/-- osm_attribution patterns of `_check_attribution`. -/
def osm_attribution : List String :=
  ["openstreetmap", "© openstreetmap", "© OpenStreetMap",
   "OpenStreetMap contributors"]

/-- The return value of `_check_map_usage`. -/
structure UsageInfo where
  using_maptiler : Bool
  library : Option String
  indicators_found : List String
  deriving DecidableEq

/-- One iteration of the library loop in `_check_map_usage`.  State threaded
between the three sub-checks is (library_found, detected_library,
found_indicators), started from (False, accumulated detected, accumulated
indicators). -/
def process_library (page_source : String) (mapUrls : List String)
    (library : String) (patterns : List String) (lib_info : LibInfo)
    (acc : List String × Option String) : List String × Option String :=
  let s0 : Bool × Option String × List String := (false, acc.2, acc.1)
  let s1 :=
    if lib_info.present then
      let ind := s0.2.2 ++ [library ++ ":js_detection"]
      let ind :=
        if lib_info.containers > 0 then
          ind ++ [library ++ ":containers:" ++ toString lib_info.containers]
        else ind
      (true, some library, ind)
    else s0
  let s2 :=
    if s1.1 then s1
    else
      patterns.foldl
        (fun s pattern =>
          if pyIn pattern page_source then
            (true,
             (if s.1 then s.2.1 else if s.2.1.isNone then some library else s.2.1),
             s.2.2 ++ [library ++ ":" ++ pattern])
          else s)
        s1
  let s3 :=
    mapUrls.foldl
      (fun s url =>
        if url != "" &&
            [library.toLower, library.toLower ++ ".min.js"].any
              (fun p => pyIn p url.toLower) then
          (true,
           (if s.1 then s.2.1 else if s.2.1.isNone then some library else s.2.1),
           s.2.2 ++ [library ++ ":script:" ++ url])
        else s)
      s2
  (s3.2.2, s3.2.1)

/-- `_check_map_usage`: collect library and MapTiler indicators, then exclude
pages whose source shows MapTiler SDK usage. -/
def check_map_usage (page_source : String) (js_variables : JsVariables) : UsageInfo :=
  let library_info := js_variables.libraryInfo
  let acc :=
    library_patterns.foldl
      (fun acc lp =>
        process_library page_source js_variables.mapUrls lp.1 lp.2
          (library_info.get lp.1) acc)
      ([], none)
  let ind :=
    js_variables.tileUrls.foldl
      (fun ind url =>
        maptiler_patterns.foldl
          (fun ind pattern =>
            if pyIn pattern url then ind ++ ["tile:" ++ url] else ind)
          ind)
      acc.1
  let ind :=
    js_variables.mapUrls.foldl
      (fun ind url =>
        if url != "" then
          maptiler_patterns.foldl
            (fun ind pattern =>
              if pyIn pattern url then ind ++ ["script:" ++ url] else ind)
            ind
        else ind)
      ind
  let ind :=
    maptiler_patterns.foldl
      (fun ind pattern =>
        if pyIn pattern page_source then ind ++ ["source:" ++ pattern] else ind)
      ind
  let using_sdk := sdk_indicators.any (fun i => pyIn i page_source)
  if using_sdk then
    { using_maptiler := false, library := none, indicators_found := [] }
  else
    { using_maptiler := !ind.isEmpty, library := acc.2, indicators_found := ind }

/-- Abstraction of the loaded page as seen by the checker's browser session:
page source, the JavaScript probe results, the texts of the attribution
elements of each library, and whether loading the page raised. -/
structure Website where
  page_source : String
  js_variables : JsVariables
  leafletAttributionTexts : List String
  olAttributionTexts : List String
  loadError : Option String
  deriving DecidableEq

/-- The return value of `_check_attribution`. -/
structure AttributionStatus where
  has_proper_attribution : Bool
  issues : List String
  deriving DecidableEq

/-- The element loop of `_check_attribution`: scan attribution texts,
accumulate issues, stop at the first text carrying both attributions. -/
def attribution_scan (texts : List String) (issues : List String) :
    Bool × List String :=
  match texts with
  | [] => (false, issues)
  | t :: rest =>
    let text := t.toLower
    let maptiler_found := maptiler_attribution.any (fun p => pyIn p.toLower text)
    let osm_found := osm_attribution.any (fun p => pyIn p.toLower text)
    let issues :=
      issues ++ (if maptiler_found then [] else ["Missing MapTiler attribution"])
        ++ (if osm_found then [] else ["Missing OpenStreetMap attribution"])
    if maptiler_found && osm_found then (true, issues)
    else attribution_scan rest issues

/-- `_check_attribution`: pick the attribution elements for the detected
library and scan their texts. -/
def check_attribution (site : Website) (library_type : Option String) :
    AttributionStatus :=
  match library_type with
  | none =>
    { has_proper_attribution := false, issues := ["Unknown library type: None"] }
  | some lt =>
    let attribution_elements :=
      if lt.toLower = "leaflet" then site.leafletAttributionTexts
      else if lt.toLower = "openlayers" then site.olAttributionTexts
      else []
    if attribution_elements.isEmpty then
      { has_proper_attribution := false,
        issues := ["No attribution element found for " ++ lt] }
    else
      let r := attribution_scan attribution_elements []
      if r.1 then { has_proper_attribution := true, issues := [] }
      else { has_proper_attribution := false, issues := r.2 }

/-- The two dictionary shapes `check_website` can return: the positive
finding (which carries uses_maptiler = True) and the error dictionary
built in the except branch (which has no uses_maptiler key). -/
inductive CheckOutcome where
  | found (url : String) (map_library : Option String)
      (maptiler_indicators : List String) (has_proper_attribution : Bool)
      (issues : List String)
  | errorResult (url : String) (error : String)
  deriving DecidableEq

/-- Python result.get of the uses_maptiler key, as a truth value: True on the
positive dictionary, missing (hence falsy) on the error dictionary. -/
def CheckOutcome.usesMaptiler : CheckOutcome → Bool
  | .found _ _ _ _ _ => true
  | .errorResult _ _ => false

/-- `MapTilerAttributionChecker.check_website`: None when no MapTiler usage is
detected (including the SDK-excluded case), the positive dictionary on a
detection, the error dictionary when the page interaction raised. -/
def check_website (site : Website) (url : String) : Option CheckOutcome :=
  match site.loadError with
  | some msg => some (CheckOutcome.errorResult url msg)
  | none =>
    let usage_info := check_map_usage site.page_source site.js_variables
    if usage_info.using_maptiler = false then none
    else
      let attribution_status := check_attribution site usage_info.library
      some (CheckOutcome.found url usage_info.library usage_info.indicators_found
        attribution_status.has_proper_attribution attribution_status.issues)

/-! ### web_crawler.py : MapTilerWebCrawler -/

/-- A parsed robots document: urllib's parser queried as can_fetch(agent, url). -/
structure RobotsPolicy where
  can_fetch : String → String → Bool

/-- The fixed external world of one crawl run: origin derivation (urlparse),
robots documents per origin (none = the fetch raises), the attribution
checker's outcome per URL (`check_website`), page fetches (none = the
request raises, otherwise response.ok and body), and link extraction. -/
structure World where
  origin : String → String
  robots : String → Option RobotsPolicy
  inspect : String → Option CheckOutcome
  fetchPage : String → Option (Bool × String)
  extract_links : String → String → List String

/-- Trace events recording what one crawl run did. -/
inductive Event where
  | waveStart (depth : Nat) (visited : List String) (frontier : List String)
  | dispatched (url : String) (depth : Nat)
  | claimed (url : String)
  | skippedRobots (url : String)
  | robotsFetch (base_url : String)
  | inspected (url : String)
  | pageFetch (url : String)
  deriving DecidableEq

/-- The configuration fields fixed in MapTilerWebCrawler.__init__. -/
structure Crawler where
  max_pages : Nat
  max_depth : Nat
  concurrency : Nat

/-- The mutable crawler state: visited_urls, robots_cache, results. -/
structure CrawlState where
  visited : List String
  robotsCache : List (String × RobotsPolicy)
  results : List CheckOutcome

/-- The state set up by MapTilerWebCrawler.__init__. -/
def initState : CrawlState := { visited := [], robotsCache := [], results := [] }

/-- `_get_robots_parser`: return the cached policy for base_url if present;
otherwise fetch and parse the robots document, caching it only on success
(the except branch returns None without caching). -/
def get_robots (w : World) (st : CrawlState) (base_url : String) :
    CrawlState × List Event × Option RobotsPolicy :=
  match st.robotsCache.lookup base_url with
  | some rp => (st, [], some rp)
  | none =>
    match w.robots base_url with
    | some rp =>
      ({ st with robotsCache := (base_url, rp) :: st.robotsCache },
       [Event.robotsFetch base_url], some rp)
    | none => (st, [Event.robotsFetch base_url], none)

/-- `_can_fetch`: derive the origin, consult the robots policy, and treat a
missing policy (fetch failure) as allowed. -/
def can_fetch (w : World) (st : CrawlState) (url : String) :
    CrawlState × List Event × Bool :=
  match get_robots w st (w.origin url) with
  | (st1, evs1, some rp) => (st1, evs1, rp.can_fetch "*" url)
  | (st1, evs1, none) => (st1, evs1, true)

/-- `_crawl_url`: skip on depth overflow or an already-visited URL, skip a
robots-disallowed URL without claiming it, otherwise claim the URL, run the
attribution checker (appending only results whose uses_maptiler is truthy),
fetch the page and extract links; any fetch failure or a bad status yields
an empty link set. -/
def crawl_url (c : Crawler) (w : World) (st : CrawlState) (url : String)
    (depth : Nat) : CrawlState × List Event × List String :=
  if depth > c.max_depth ∨ url ∈ st.visited then
    (st, [Event.dispatched url depth], [])
  else
    match can_fetch w st url with
    | (st1, evs1, false) =>
      (st1, Event.dispatched url depth :: evs1 ++ [Event.skippedRobots url], [])
    | (st1, evs1, true) =>
      let st2 := { st1 with visited := url :: st1.visited }
      let st3 :=
        match w.inspect url with
        | some result =>
          if result.usesMaptiler then
            { st2 with results := st2.results ++ [result] }
          else st2
        | none => st2
      let links :=
        match w.fetchPage url with
        | none => []
        | some (ok, html) => if ok then w.extract_links url html else []
      (st3,
       Event.dispatched url depth :: evs1 ++
         [Event.claimed url, Event.inspected url, Event.pageFetch url],
       links)

/-- One wave of `crawl`: dispatch every frontier URL (the pool joins before
the next frontier is formed, so the wave's effect is the sequential
composition of its distinct URLs), collecting the union of returned links. -/
def runWave (c : Crawler) (w : World) (st : CrawlState) (frontier : List String)
    (depth : Nat) : CrawlState × List Event × List String :=
  match frontier with
  | [] => (st, [], [])
  | u :: rest =>
    let r := crawl_url c w st u depth
    let r2 := runWave c w r.1 rest depth
    (r2.1, r.2.1 ++ r2.2.1, r.2.2 ++ r2.2.2)

/-- Materialisation of a Python set of URLs as a duplicate-free list (set
construction and set difference in `crawl` produce such lists; iteration
order of a Python set is unspecified, so any fixed order is a faithful
model). -/
def pySet : List String → List String
  | [] => []
  | a :: rest => if a ∈ rest then pySet rest else a :: pySet rest

theorem mem_pySet (a : String) : ∀ l : List String, a ∈ pySet l ↔ a ∈ l := by
  intro l
  induction l with
  | nil => simp [pySet]
  | cons b rest ih =>
    by_cases hb : b ∈ rest
    · simp only [pySet, if_pos hb, ih, List.mem_cons]
      constructor
      · exact fun h => Or.inr h
      · rintro (h | h)
        · exact h ▸ hb
        · exact h
    · simp only [pySet, if_neg hb, List.mem_cons, ih]

/-- The while loop of `crawl`.  The loop body runs only while the frontier is
non-empty, the visited set is below max_pages and the depth is at most
max_depth; the fuel argument is a recursion bound that never truncates the
loop when it is at least max_depth + 1 - depth (see the fuel congruence
theorem below). -/
def crawlLoop (c : Crawler) (w : World) :
    Nat → CrawlState → List String → Nat → CrawlState × List Event
  | 0, st, _, _ => (st, [])
  | fuel + 1, st, frontier, depth =>
    if frontier ≠ [] ∧ st.visited.length < c.max_pages ∧ depth ≤ c.max_depth then
      let wr := runWave c w st frontier depth
      let frontier2 :=
        pySet (wr.2.2.filter (fun u => decide (u ∉ wr.1.visited)))
      let rest := crawlLoop c w fuel wr.1 frontier2 (depth + 1)
      (rest.1, Event.waveStart depth st.visited frontier :: (wr.2.1 ++ rest.2))
    else (st, [])

/-- `crawl`: deduplicate the seed URLs into the depth-0 frontier and run the
wave loop from the freshly initialised state. -/
def crawl (c : Crawler) (w : World) (start_urls : List String) :
    CrawlState × List Event :=
  crawlLoop c w (c.max_depth + 1) initState (pySet start_urls) 0

/-- The results_data dictionary written by `save_results` (timestamp and file
input/output omitted). -/
structure CrawlReport where
  total_pages_crawled : Nat
  maptiler_pages_found : Nat
  results : List CheckOutcome
  deriving DecidableEq

/-- `save_results`: total_pages_crawled is the size of the visited set,
maptiler_pages_found the length of the result list, results the list itself. -/
def save_results (st : CrawlState) : CrawlReport :=
  { total_pages_crawled := st.visited.length
    maptiler_pages_found := st.results.length
    results := st.results }

/-! ### map_detector.py : check_page -/

/-- A small model of Python values for the detector's script result and the
analysis dictionary it builds. -/
inductive PyVal where
  | noneVal
  | bool (b : Bool)
  | str (s : String)
  | list (xs : List PyVal)
  | dict (fields : List (String × PyVal))

/-- Python subscription value[key]: a KeyError on a missing dictionary key. -/
def PyVal.getItem : PyVal → String → Except String PyVal
  | .dict fields, key =>
    match fields.lookup key with
    | some v => Except.ok v
    | none => Except.error ("KeyError: " ++ key)
  | _, key => Except.error ("TypeError: not subscriptable: " ++ key)

/-- Python value.get(key, default). -/
def PyVal.get (v : PyVal) (key : String) (dflt : PyVal) : PyVal :=
  match v with
  | .dict fields => (fields.lookup key).getD dflt
  | _ => dflt

/-- Python len for the value shapes the detector uses. -/
def PyVal.len : PyVal → Except String Nat
  | .list xs => Except.ok xs.length
  | .str s => Except.ok s.length
  | _ => Except.error "TypeError: object has no len"

/-- Python truthiness for the value shapes the detector uses. -/
def PyVal.truthy : PyVal → Bool
  | .noneVal => false
  | .bool b => b
  | .str s => s != ""
  | .list xs => !xs.isEmpty
  | .dict fields => !fields.isEmpty

/-- The observable JavaScript state of a successfully loaded page, as read by
the detection script of `check_page`. -/
structure DetectorPage where
  scripts : List String
  leafletDefined : Bool
  leafletAttribution : String
  olDefined : Bool
  olAttribution : String
  olTileSourceUrls : List String
  imgSrcs : List String

/-- The object literal returned by the in-page detection script of
`check_page`: the maptiler sub-object carries only a urls field. -/
def detector_script (page : DetectorPage) : PyVal :=
  PyVal.dict
    [("leaflet", PyVal.dict
        [("present", PyVal.bool page.leafletDefined),
         ("attribution", PyVal.str page.leafletAttribution),
         ("mapConfig", PyVal.bool
            (page.leafletDefined &&
             page.scripts.any (fun s => pyIn "maptiler.com" s)))]),
     ("openlayers", PyVal.dict
        [("present", PyVal.bool page.olDefined),
         ("attribution", PyVal.str page.olAttribution),
         ("sources", PyVal.list
            ((if page.olDefined then
                page.olTileSourceUrls.filter (fun u => pyIn "maptiler.com" u)
              else []).map PyVal.str))]),
     ("maptiler", PyVal.dict
        [("urls", PyVal.list
            ((page.imgSrcs.filter (fun src => pyIn "maptiler" src)).map
              PyVal.str))])]

/-- `check_page` on a page that loaded and whose script evaluated: build the
analysis dictionary in the source's evaluation order.  The using_sdk entry
subscripts the maptiler sub-object at the sdk key. -/
def check_page (page : DetectorPage) (url : String) : Except String PyVal := do
  let result := detector_script page
  let mt ← result.getItem "maptiler"
  let mtUrls ← mt.getItem "urls"
  let nMtUrls ← mtUrls.len
  let lf ← result.getItem "leaflet"
  let lfMapConfig ← lf.getItem "mapConfig"
  let olSources := (result.get "openlayers" (PyVal.dict [])).get "sources"
    (PyVal.list [])
  let nOlSources ← olSources.len
  let using_maptiler :=
    decide (0 < nMtUrls) || lfMapConfig.truthy || decide (0 < nOlSources)
  let using_sdk ← mt.getItem "sdk"
  let lfPresent ← lf.getItem "present"
  let ol ← result.getItem "openlayers"
  let olPresent ← ol.getItem "present"
  let library :=
    if lfPresent.truthy then PyVal.str "Leaflet"
    else if olPresent.truthy then PyVal.str "OpenLayers"
    else PyVal.noneVal
  let lfAttr ← lf.getItem "attribution"
  let olAttr := (result.get "openlayers" (PyVal.dict [])).get "attribution"
    (PyVal.str "")
  let combined ←
    match lfAttr, olAttr with
    | PyVal.str a, PyVal.str b => Except.ok (a ++ b)
    | _, _ => Except.error "TypeError: unsupported operand"
  let has_attribution := pyIn "maptiler" combined.toLower
  let attribution_text :=
    match lfAttr, olAttr with
    | PyVal.str a, PyVal.str b => if a != "" then a else b
    | _, _ => ""
  Except.ok (PyVal.dict
    [("url", PyVal.str url),
     ("using_maptiler", PyVal.bool using_maptiler),
     ("using_sdk", using_sdk),
     ("library", library),
     ("has_attribution", PyVal.bool has_attribution),
     ("details", PyVal.dict
        [("maptiler_urls_found", PyVal.bool (decide (0 < nMtUrls))),
         ("maptiler_in_config",
          PyVal.bool (lfMapConfig.truthy || decide (0 < nOlSources))),
         ("attribution_text", PyVal.str attribution_text)])])

/-! ### Trace bookkeeping -/

/-- Count the events satisfying a predicate. -/
def evCount (p : Event → Bool) (evs : List Event) : Nat := (evs.filter p).length

/-- Predicate matching the claim event of a given URL. -/
def isClaimMark (u : String) : Event → Bool
  | .claimed v => v == u
  | _ => false

/-- Predicate matching any dispatch event of a given URL. -/
def isDispatchMark (u : String) : Event → Bool
  | .dispatched v _ => v == u
  | _ => false

/-- Predicate matching a robots fetch of a given origin. -/
def isRobotsMark (o : String) : Event → Bool
  | .robotsFetch b => b == o
  | _ => false

/-- The wave-start records of a trace (depth, visited snapshot, frontier). -/
def waveStarts (evs : List Event) : List (Nat × List String × List String) :=
  evs.filterMap
    (fun e =>
      match e with
      | Event.waveStart d v f => some (d, v, f)
      | _ => none)

/-! ### Basic trace-count lemmas -/

theorem evCount_nil (p : Event → Bool) : evCount p [] = 0 := rfl

theorem evCount_cons (p : Event → Bool) (e : Event) (evs : List Event) :
    evCount p (e :: evs) = (if p e then 1 else 0) + evCount p evs := by
  by_cases h : p e
  · simp [evCount, List.filter_cons, h, Nat.add_comm]
  · simp [evCount, List.filter_cons, h]

theorem evCount_append (p : Event → Bool) (l1 l2 : List Event) :
    evCount p (l1 ++ l2) = evCount p l1 + evCount p l2 := by
  simp [evCount, List.filter_append]

theorem evCount_zero (p : Event → Bool) (evs : List Event)
    (h : ∀ e ∈ evs, p e = false) : evCount p evs = 0 := by
  induction evs with
  | nil => rfl
  | cons e rest ih =>
    rw [evCount_cons, h e (List.mem_cons_self e rest),
      ih fun x hx => h x (List.mem_cons_of_mem e hx)]
    simp

/-! ### Structural facts about the politeness cache -/

theorem get_robots_visited (w : World) (st : CrawlState) (b : String) :
    (get_robots w st b).1.visited = st.visited := by
  unfold get_robots
  cases st.robotsCache.lookup b with
  | some rp => rfl
  | none =>
    cases w.robots b with
    | some rp => rfl
    | none => rfl

theorem get_robots_results (w : World) (st : CrawlState) (b : String) :
    (get_robots w st b).1.results = st.results := by
  unfold get_robots
  cases st.robotsCache.lookup b with
  | some rp => rfl
  | none =>
    cases w.robots b with
    | some rp => rfl
    | none => rfl

theorem get_robots_event_mem (w : World) (st : CrawlState) (b : String) :
    ∀ e ∈ (get_robots w st b).2.1, e = Event.robotsFetch b := by
  unfold get_robots
  cases st.robotsCache.lookup b with
  | some rp => simp
  | none =>
    cases w.robots b with
    | some rp => simp
    | none => simp

theorem can_fetch_decomp (w : World) (st : CrawlState) (v : String) :
    (can_fetch w st v).1 = (get_robots w st (w.origin v)).1 ∧
    (can_fetch w st v).2.1 = (get_robots w st (w.origin v)).2.1 := by
  unfold can_fetch
  rcases h : get_robots w st (w.origin v) with ⟨st1, evs1, o⟩
  cases o <;> simp

theorem can_fetch_visited (w : World) (st : CrawlState) (v : String) :
    (can_fetch w st v).1.visited = st.visited := by
  rw [(can_fetch_decomp w st v).1, get_robots_visited]

theorem can_fetch_results (w : World) (st : CrawlState) (v : String) :
    (can_fetch w st v).1.results = st.results := by
  rw [(can_fetch_decomp w st v).1, get_robots_results]

theorem can_fetch_event_mem (w : World) (st : CrawlState) (v : String) :
    ∀ e ∈ (can_fetch w st v).2.1, e = Event.robotsFetch (w.origin v) := by
  rw [(can_fetch_decomp w st v).2]
  exact get_robots_event_mem w st (w.origin v)

/-! ### A case analysis of `crawl_url` -/

theorem crawl_url_cases (c : Crawler) (w : World) (st : CrawlState) (v : String)
    (d : Nat) :
    (crawl_url c w st v d = (st, [Event.dispatched v d], []) ∧
      (d > c.max_depth ∨ v ∈ st.visited)) ∨
    (¬(d > c.max_depth ∨ v ∈ st.visited) ∧ (can_fetch w st v).2.2 = false ∧
      crawl_url c w st v d =
        ((can_fetch w st v).1,
         Event.dispatched v d :: (can_fetch w st v).2.1 ++
           [Event.skippedRobots v], [])) ∨
    (¬(d > c.max_depth ∨ v ∈ st.visited) ∧ (can_fetch w st v).2.2 = true ∧
      (crawl_url c w st v d).1.visited = v :: (can_fetch w st v).1.visited ∧
      (crawl_url c w st v d).1.robotsCache = (can_fetch w st v).1.robotsCache ∧
      ((crawl_url c w st v d).1.results = (can_fetch w st v).1.results ∨
        ∃ r, w.inspect v = some r ∧ r.usesMaptiler = true ∧
          (crawl_url c w st v d).1.results =
            (can_fetch w st v).1.results ++ [r]) ∧
      (crawl_url c w st v d).2.1 =
        Event.dispatched v d :: (can_fetch w st v).2.1 ++
          [Event.claimed v, Event.inspected v, Event.pageFetch v]) := by
  by_cases h1 : d > c.max_depth ∨ v ∈ st.visited
  · left
    exact ⟨by simp [crawl_url, h1], h1⟩
  · rcases hcf : can_fetch w st v with ⟨st1, evs1, allowed⟩
    cases allowed with
    | false =>
      right; left
      refine ⟨h1, by simp [hcf], ?_⟩
      simp [crawl_url, h1, hcf]
    | true =>
      right; right
      refine ⟨h1, by simp [hcf], ?_, ?_, ?_, ?_⟩
      · simp only [crawl_url, if_neg h1, hcf]
        cases hI : w.inspect v with
        | none => simp
        | some r => by_cases hr : r.usesMaptiler <;> simp [hr]
      · simp only [crawl_url, if_neg h1, hcf]
        cases hI : w.inspect v with
        | none => simp
        | some r => by_cases hr : r.usesMaptiler <;> simp [hr]
      · simp only [crawl_url, if_neg h1, hcf]
        cases hI : w.inspect v with
        | none => simp
        | some r =>
          by_cases hr : r.usesMaptiler
          · exact Or.inr ⟨r, rfl, hr, by simp [hr]⟩
          · simp [hr]
      · simp only [crawl_url, if_neg h1, hcf]

/-! ### Potential-function bounds over the crawl loop -/

/-- Potential counting whether a URL is still unclaimed. -/
def visPot (u : String) (st : CrawlState) : Nat := if u ∈ st.visited then 0 else 1

/-- Potential counting whether an origin is still uncached. -/
def robPot (o : String) (st : CrawlState) : Nat :=
  if (st.robotsCache.lookup o).isSome then 0 else 1

theorem runWave_pot (c : Crawler) (w : World) (p : Event → Bool)
    (φ : CrawlState → Nat)
    (hstep : ∀ st v d, evCount p (crawl_url c w st v d).2.1 +
      φ (crawl_url c w st v d).1 ≤ φ st) :
    ∀ (frontier : List String) (st : CrawlState) (d : Nat),
      evCount p (runWave c w st frontier d).2.1 +
        φ (runWave c w st frontier d).1 ≤ φ st := by
  intro frontier
  induction frontier with
  | nil => intro st d; simp [runWave, evCount]
  | cons u rest ih =>
    intro st d
    have h1 := hstep st u d
    have h2 := ih (crawl_url c w st u d).1 d
    simp only [runWave, evCount_append]
    omega

theorem crawlLoop_pot (c : Crawler) (w : World) (p : Event → Bool)
    (φ : CrawlState → Nat)
    (hstep : ∀ st v d, evCount p (crawl_url c w st v d).2.1 +
      φ (crawl_url c w st v d).1 ≤ φ st)
    (hws : ∀ dep vis f, p (Event.waveStart dep vis f) = false) :
    ∀ (fuel : Nat) (st : CrawlState) (frontier : List String) (depth : Nat),
      evCount p (crawlLoop c w fuel st frontier depth).2 +
        φ (crawlLoop c w fuel st frontier depth).1 ≤ φ st := by
  intro fuel
  induction fuel with
  | zero => intro st frontier depth; simp [crawlLoop, evCount]
  | succ n ih =>
    intro st frontier depth
    by_cases hg : frontier ≠ [] ∧ st.visited.length < c.max_pages ∧
        depth ≤ c.max_depth
    · have hw := runWave_pot c w p φ hstep frontier st depth
      have hr := ih (runWave c w st frontier depth).1
        (pySet ((runWave c w st frontier depth).2.2.filter
          (fun u => decide (u ∉ (runWave c w st frontier depth).1.visited))))
        (depth + 1)
      simp only [crawlLoop, if_pos hg, evCount_cons, evCount_append, hws,
        Bool.false_eq_true, if_false]
      omega
    · simp [crawlLoop, if_neg hg, evCount]

/-- The claim-step bound: dispatching one URL emits the claim event of u at
most once, and only while consuming the unclaimed potential of u. -/
theorem crawl_url_claim_step (c : Crawler) (w : World) (u : String) :
    ∀ (st : CrawlState) (v : String) (d : Nat),
      evCount (isClaimMark u) (crawl_url c w st v d).2.1 +
        visPot u (crawl_url c w st v d).1 ≤ visPot u st := by
  intro st v d
  rcases crawl_url_cases c w st v d with
    ⟨heq, h1⟩ | ⟨h1, hcf, heq⟩ | ⟨h1, hcf, hvis, hrc, hres, hevs⟩
  · rw [heq]
    simp [evCount_cons, evCount_nil, isClaimMark, visPot]
  · have hz : evCount (isClaimMark u) (can_fetch w st v).2.1 = 0 :=
      evCount_zero _ _ (fun e he => by rw [can_fetch_event_mem w st v e he]; rfl)
    rw [heq]
    simp only [evCount_cons, evCount_append, evCount_nil, hz, visPot,
      can_fetch_visited]
    simp [isClaimMark]
  · have hz : evCount (isClaimMark u) (can_fetch w st v).2.1 = 0 :=
      evCount_zero _ _ (fun e he => by rw [can_fetch_event_mem w st v e he]; rfl)
    have hpost : u ∈ (crawl_url c w st v d).1.visited ↔ u = v ∨ u ∈ st.visited := by
      rw [hvis, can_fetch_visited]; simp
    rw [hevs]
    simp only [evCount_cons, evCount_append, evCount_nil, hz]
    by_cases hvu : u = v
    · have hnv : v ∉ st.visited := fun hmem => h1 (Or.inr hmem)
      have h2 : visPot u st = 1 := by
        simp [visPot, hvu, hnv]
      have h3 : visPot u (crawl_url c w st v d).1 = 0 := by
        simp [visPot, hpost.mpr (Or.inl hvu)]
      simp only [isClaimMark, h2, h3]
      have hb : (v == u) = true := by simp [hvu]
      simp [hb]
    · have hb : (v == u) = false := by
        simp
        exact fun hh => hvu hh.symm
      have h4 : visPot u (crawl_url c w st v d).1 = visPot u st := by
        by_cases hm : u ∈ st.visited
        · simp [visPot, hm, hpost.mpr (Or.inr hm)]
        · have : u ∉ (crawl_url c w st v d).1.visited := by
            rw [hpost]; tauto
          simp [visPot, hm, this]
      simp only [isClaimMark, hb, h4]
      simp

/-- At most one claim of any URL across a whole crawl run. -/
theorem crawl_claimed_le_one (c : Crawler) (w : World) (seeds : List String)
    (u : String) : evCount (isClaimMark u) (crawl c w seeds).2 ≤ 1 := by
  have h := crawlLoop_pot c w (isClaimMark u) (visPot u)
    (crawl_url_claim_step c w u) (fun dep vis f => rfl)
    (c.max_depth + 1) initState (pySet seeds) 0
  have hi : visPot u initState = 1 := by simp [visPot, initState]
  rw [hi] at h
  unfold crawl
  omega

/-- The robots-step bound for an origin whose robots document is fetchable:
once the policy is cached, no further fetch of that origin is emitted. -/
theorem get_robots_rob_step (w : World) (o : String)
    (hrob : (w.robots o).isSome = true) :
    ∀ (st : CrawlState) (b : String),
      evCount (isRobotsMark o) (get_robots w st b).2.1 +
        robPot o (get_robots w st b).1 ≤ robPot o st := by
  intro st b
  unfold get_robots
  cases hl : st.robotsCache.lookup b with
  | some rp => simp [evCount, robPot]
  | none =>
    cases hr : w.robots b with
    | some rp =>
      by_cases hbo : b = o
      · subst hbo
        simp [evCount_cons, evCount_nil, isRobotsMark, robPot, hl,
          List.lookup_cons_self]
      · have hb : (o == b) = false := by
          simp; exact fun hh => hbo hh.symm
        have hcons : ((b, rp) :: st.robotsCache).lookup o =
            st.robotsCache.lookup o := by
          rw [List.lookup_cons, hb]
        have hbm : isRobotsMark o (Event.robotsFetch b) = false := by
          simp [isRobotsMark]
          exact hbo
        simp only [evCount_cons, evCount_nil, hbm, Bool.false_eq_true, if_false,
          robPot]
        rw [hcons]
        omega
    | none =>
      by_cases hbo : b = o
      · subst hbo
        rw [hr] at hrob
        simp at hrob
      · have hbm : isRobotsMark o (Event.robotsFetch b) = false := by
          simp [isRobotsMark]
          exact hbo
        simp [evCount_cons, evCount_nil, hbm, robPot]

theorem crawl_url_rob_step (c : Crawler) (w : World) (o : String)
    (hrob : (w.robots o).isSome = true) :
    ∀ (st : CrawlState) (v : String) (d : Nat),
      evCount (isRobotsMark o) (crawl_url c w st v d).2.1 +
        robPot o (crawl_url c w st v d).1 ≤ robPot o st := by
  intro st v d
  have hcan : evCount (isRobotsMark o) (can_fetch w st v).2.1 +
      robPot o (can_fetch w st v).1 ≤ robPot o st := by
    rw [(can_fetch_decomp w st v).1, (can_fetch_decomp w st v).2]
    exact get_robots_rob_step w o hrob st (w.origin v)
  rcases crawl_url_cases c w st v d with
    ⟨heq, h1⟩ | ⟨h1, hcf, heq⟩ | ⟨h1, hcf, hvis, hrc, hres, hevs⟩
  · rw [heq]
    simp [evCount_cons, evCount_nil, isRobotsMark, robPot]
  · rw [heq]
    simp only [evCount_cons, evCount_append, evCount_nil]
    have h2 : isRobotsMark o (Event.dispatched v d) = false := rfl
    have h3 : isRobotsMark o (Event.skippedRobots v) = false := rfl
    simp only [h2, h3]
    simp only [Bool.false_eq_true, if_false]
    omega
  · have hpost : robPot o (crawl_url c w st v d).1 =
        robPot o (can_fetch w st v).1 := by
      unfold robPot
      rw [hrc]
    rw [hevs]
    simp only [evCount_cons, evCount_append, evCount_nil]
    have h2 : isRobotsMark o (Event.dispatched v d) = false := rfl
    have h3 : isRobotsMark o (Event.claimed v) = false := rfl
    have h4 : isRobotsMark o (Event.inspected v) = false := rfl
    have h5 : isRobotsMark o (Event.pageFetch v) = false := rfl
    simp only [h2, h3, h4, h5, Bool.false_eq_true, if_false, hpost]
    omega

/-- At most one robots fetch per origin whose robots document is fetchable. -/
theorem crawl_robots_le_one (c : Crawler) (w : World) (seeds : List String)
    (o : String) (hrob : (w.robots o).isSome = true) :
    evCount (isRobotsMark o) (crawl c w seeds).2 ≤ 1 := by
  have h := crawlLoop_pot c w (isRobotsMark o) (robPot o)
    (crawl_url_rob_step c w o hrob) (fun dep vis f => rfl)
    (c.max_depth + 1) initState (pySet seeds) 0
  have hi : robPot o initState = 1 := by simp [robPot, initState]
  rw [hi] at h
  unfold crawl
  omega

/-! ### Result aggregation facts -/

theorem crawl_url_results_good (c : Crawler) (w : World) (st : CrawlState)
    (v : String) (d : Nat) :
    ∀ r ∈ (crawl_url c w st v d).1.results,
      r ∈ st.results ∨ r.usesMaptiler = true := by
  rcases crawl_url_cases c w st v d with
    ⟨heq, h1⟩ | ⟨h1, hcf, heq⟩ | ⟨h1, hcf, hvis, hrc, hres, hevs⟩
  · rw [heq]; exact fun r hr => Or.inl hr
  · rw [heq]
    intro r hr
    simp only [can_fetch_results] at hr
    exact Or.inl hr
  · intro r hr
    rcases hres with heq2 | ⟨r0, hI, hu, heq2⟩
    · rw [heq2, can_fetch_results] at hr
      exact Or.inl hr
    · rw [heq2, can_fetch_results] at hr
      rcases List.mem_append.mp hr with hin | hin
      · exact Or.inl hin
      · simp at hin
        subst hin
        exact Or.inr hu

theorem runWave_results_good (c : Crawler) (w : World) :
    ∀ (frontier : List String) (st : CrawlState) (d : Nat),
      ∀ r ∈ (runWave c w st frontier d).1.results,
        r ∈ st.results ∨ r.usesMaptiler = true := by
  intro frontier
  induction frontier with
  | nil => intro st d r hr; exact Or.inl hr
  | cons u rest ih =>
    intro st d r hr
    simp only [runWave] at hr
    rcases ih (crawl_url c w st u d).1 d r hr with hin | hgood
    · exact crawl_url_results_good c w st u d r hin
    · exact Or.inr hgood

theorem crawlLoop_results_good (c : Crawler) (w : World) :
    ∀ (fuel : Nat) (st : CrawlState) (frontier : List String) (depth : Nat),
      ∀ r ∈ (crawlLoop c w fuel st frontier depth).1.results,
        r ∈ st.results ∨ r.usesMaptiler = true := by
  intro fuel
  induction fuel with
  | zero => intro st frontier depth r hr; exact Or.inl hr
  | succ n ih =>
    intro st frontier depth r hr
    by_cases hg : frontier ≠ [] ∧ st.visited.length < c.max_pages ∧
        depth ≤ c.max_depth
    · simp only [crawlLoop, if_pos hg] at hr
      rcases ih (runWave c w st frontier depth).1 _ (depth + 1) r hr with hin | hgood
      · exact runWave_results_good c w frontier st depth r hin
      · exact Or.inr hgood
    · simp only [crawlLoop, if_neg hg] at hr
      exact Or.inl hr

/-- Every aggregated result of a crawl run is a positive finding. -/
theorem crawl_results_good (c : Crawler) (w : World) (seeds : List String) :
    ∀ r ∈ (crawl c w seeds).1.results, r.usesMaptiler = true := by
  intro r hr
  rcases crawlLoop_results_good c w (c.max_depth + 1) initState (pySet seeds) 0
    r hr with hin | hgood
  · simp [initState] at hin
  · exact hgood

/-! ### Trace shape lemmas -/

theorem crawl_url_event_shape (c : Crawler) (w : World) (st : CrawlState)
    (v : String) (d : Nat) :
    ∀ e ∈ (crawl_url c w st v d).2.1,
      e = Event.dispatched v d ∨ (∃ o, e = Event.robotsFetch o) ∨
      e = Event.skippedRobots v ∨ e = Event.claimed v ∨
      e = Event.inspected v ∨ e = Event.pageFetch v := by
  rcases crawl_url_cases c w st v d with
    ⟨heq, h1⟩ | ⟨h1, hcf, heq⟩ | ⟨h1, hcf, hvis, hrc, hres, hevs⟩
  · rw [heq]
    intro e he
    simp at he
    exact Or.inl he
  · rw [heq]
    intro e he
    simp at he
    rcases he with he | he | he
    · exact Or.inl he
    · exact Or.inr (Or.inl ⟨w.origin v, can_fetch_event_mem w st v e he⟩)
    · exact Or.inr (Or.inr (Or.inl he))
  · rw [hevs]
    intro e he
    simp at he
    rcases he with he | he | he | he | he
    · exact Or.inl he
    · exact Or.inr (Or.inl ⟨w.origin v, can_fetch_event_mem w st v e he⟩)
    · exact Or.inr (Or.inr (Or.inr (Or.inl he)))
    · exact Or.inr (Or.inr (Or.inr (Or.inr (Or.inl he))))
    · exact Or.inr (Or.inr (Or.inr (Or.inr (Or.inr he))))

theorem runWave_event_shape (c : Crawler) (w : World) :
    ∀ (frontier : List String) (st : CrawlState) (d : Nat),
      ∀ e ∈ (runWave c w st frontier d).2.1,
        (∀ dep vis f, e ≠ Event.waveStart dep vis f) ∧
        (∀ x dd, e = Event.dispatched x dd → dd = d) := by
  intro frontier
  induction frontier with
  | nil =>
    intro st d e he
    simp [runWave] at he
  | cons u rest ih =>
    intro st d e he
    simp only [runWave, List.mem_append] at he
    rcases he with he | he
    · rcases crawl_url_event_shape c w st u d e he with
        he2 | ⟨o, he2⟩ | he2 | he2 | he2 | he2
      · subst he2
        refine ⟨fun dep vis f => by simp, fun x dd hx => ?_⟩
        injection hx with h1 h2
        exact h2.symm
      · subst he2
        exact ⟨fun dep vis f => by simp, fun x dd hx => by simp at hx⟩
      · subst he2
        exact ⟨fun dep vis f => by simp, fun x dd hx => by simp at hx⟩
      · subst he2
        exact ⟨fun dep vis f => by simp, fun x dd hx => by simp at hx⟩
      · subst he2
        exact ⟨fun dep vis f => by simp, fun x dd hx => by simp at hx⟩
      · subst he2
        exact ⟨fun dep vis f => by simp, fun x dd hx => by simp at hx⟩
    · exact ih (crawl_url c w st u d).1 d e he

theorem runWave_no_waveStart (c : Crawler) (w : World) (frontier : List String)
    (st : CrawlState) (d : Nat) :
    waveStarts (runWave c w st frontier d).2.1 = [] := by
  apply List.filterMap_eq_nil_iff.mpr
  intro e he
  have h := (runWave_event_shape c w frontier st d e he).1
  cases e with
  | waveStart dep vis f => exact absurd rfl (h dep vis f)
  | dispatched x dd => rfl
  | claimed x => rfl
  | skippedRobots x => rfl
  | robotsFetch x => rfl
  | inspected x => rfl
  | pageFetch x => rfl

/-- Dispatch events appear only at depths the wave guard admits. -/
theorem crawlLoop_dispatch_le (c : Crawler) (w : World) :
    ∀ (fuel : Nat) (st : CrawlState) (frontier : List String) (depth : Nat),
      ∀ x dd, Event.dispatched x dd ∈ (crawlLoop c w fuel st frontier depth).2 →
        dd ≤ c.max_depth := by
  intro fuel
  induction fuel with
  | zero => intro st frontier depth x dd h; simp [crawlLoop] at h
  | succ n ih =>
    intro st frontier depth x dd h
    by_cases hg : frontier ≠ [] ∧ st.visited.length < c.max_pages ∧
        depth ≤ c.max_depth
    · simp only [crawlLoop, if_pos hg, List.mem_cons, List.mem_append] at h
      rcases h with h | h | h
      · exact absurd h (by simp)
      · have h2 := (runWave_event_shape c w frontier st depth _ h).2 x dd rfl
        exact h2 ▸ hg.2.2
      · exact ih (runWave c w st frontier depth).1 _ (depth + 1) x dd h
    · simp [crawlLoop, if_neg hg] at h

/-- Each recorded wave start satisfies the loop guard on the visited size and
the depth. -/
theorem crawlLoop_waveStart_guard (c : Crawler) (w : World) :
    ∀ (fuel : Nat) (st : CrawlState) (frontier : List String) (depth : Nat),
      ∀ x ∈ waveStarts (crawlLoop c w fuel st frontier depth).2,
        x.2.1.length < c.max_pages ∧ x.1 ≤ c.max_depth := by
  intro fuel
  induction fuel with
  | zero => intro st frontier depth x h; simp [crawlLoop, waveStarts] at h
  | succ n ih =>
    intro st frontier depth x h
    by_cases hg : frontier ≠ [] ∧ st.visited.length < c.max_pages ∧
        depth ≤ c.max_depth
    · have hnw := runWave_no_waveStart c w frontier st depth
      simp only [waveStarts] at hnw
      simp only [crawlLoop, if_pos hg, waveStarts, List.filterMap_cons,
        List.filterMap_append] at h
      rw [hnw] at h
      simp at h
      rcases h with h | h
      · subst h
        exact ⟨hg.2.1, hg.2.2⟩
      · exact ih (runWave c w st frontier depth).1 _ (depth + 1) x
          (by simpa [waveStarts] using h)
    · simp [crawlLoop, if_neg hg, waveStarts] at h

/-! ### Wave counting, monotonicity and termination structure -/

theorem crawl_url_visited_sub (c : Crawler) (w : World) (st : CrawlState)
    (v : String) (d : Nat) :
    ∀ x ∈ st.visited, x ∈ (crawl_url c w st v d).1.visited := by
  rcases crawl_url_cases c w st v d with
    ⟨heq, h1⟩ | ⟨h1, hcf, heq⟩ | ⟨h1, hcf, hvis, hrc, hres, hevs⟩
  · rw [heq]; exact fun x hx => hx
  · rw [heq]
    intro x hx
    simpa [can_fetch_visited] using hx
  · intro x hx
    rw [hvis, can_fetch_visited]
    exact List.mem_cons_of_mem v hx

theorem runWave_visited_sub (c : Crawler) (w : World) :
    ∀ (frontier : List String) (st : CrawlState) (d : Nat),
      ∀ x ∈ st.visited, x ∈ (runWave c w st frontier d).1.visited := by
  intro frontier
  induction frontier with
  | nil => intro st d x hx; exact hx
  | cons u rest ih =>
    intro st d x hx
    exact ih (crawl_url c w st u d).1 d x (crawl_url_visited_sub c w st u d x hx)

theorem crawlLoop_waveStarts_len (c : Crawler) (w : World) :
    ∀ (fuel : Nat) (st : CrawlState) (frontier : List String) (depth : Nat),
      (waveStarts (crawlLoop c w fuel st frontier depth).2).length ≤ fuel := by
  intro fuel
  induction fuel with
  | zero => intro st frontier depth; simp [crawlLoop, waveStarts]
  | succ n ih =>
    intro st frontier depth
    by_cases hg : frontier ≠ [] ∧ st.visited.length < c.max_pages ∧
        depth ≤ c.max_depth
    · have hnw := runWave_no_waveStart c w frontier st depth
      simp only [waveStarts] at hnw
      simp only [crawlLoop, if_pos hg, waveStarts, List.filterMap_cons,
        List.filterMap_append]
      rw [hnw]
      have := ih (runWave c w st frontier depth).1
        (pySet ((runWave c w st frontier depth).2.2.filter
          (fun u => decide (u ∉ (runWave c w st frontier depth).1.visited))))
        (depth + 1)
      simp only [waveStarts] at this
      simpa using this
    · simp [crawlLoop, if_neg hg, waveStarts]

theorem crawlLoop_waveStarts_depths (c : Crawler) (w : World) :
    ∀ (fuel : Nat) (st : CrawlState) (frontier : List String) (depth : Nat),
      (waveStarts (crawlLoop c w fuel st frontier depth).2).map (fun x => x.1) =
        List.range' depth
          (waveStarts (crawlLoop c w fuel st frontier depth).2).length := by
  intro fuel
  induction fuel with
  | zero => intro st frontier depth; simp [crawlLoop, waveStarts]
  | succ n ih =>
    intro st frontier depth
    by_cases hg : frontier ≠ [] ∧ st.visited.length < c.max_pages ∧
        depth ≤ c.max_depth
    · have hnw := runWave_no_waveStart c w frontier st depth
      simp only [waveStarts] at hnw
      simp only [crawlLoop, if_pos hg, waveStarts, List.filterMap_cons,
        List.filterMap_append]
      rw [hnw]
      have := ih (runWave c w st frontier depth).1
        (pySet ((runWave c w st frontier depth).2.2.filter
          (fun u => decide (u ∉ (runWave c w st frontier depth).1.visited))))
        (depth + 1)
      simp only [waveStarts] at this
      simp only [List.nil_append, List.map_cons, List.length_cons, this,
        List.range'_succ]
    · simp [crawlLoop, if_neg hg, waveStarts]

theorem crawlLoop_waveStarts_chain (c : Crawler) (w : World) :
    ∀ (fuel : Nat) (st : CrawlState) (frontier : List String) (depth : Nat),
      List.Chain' (fun a b => a.2.1 ⊆ b.2.1)
        (waveStarts (crawlLoop c w fuel st frontier depth).2) ∧
      (∀ y, (waveStarts (crawlLoop c w fuel st frontier depth).2).head? = some y →
        st.visited ⊆ y.2.1) := by
  intro fuel
  induction fuel with
  | zero =>
    intro st frontier depth
    constructor
    · simp [crawlLoop, waveStarts]
    · intro y hy; simp [crawlLoop, waveStarts] at hy
  | succ n ih =>
    intro st frontier depth
    by_cases hg : frontier ≠ [] ∧ st.visited.length < c.max_pages ∧
        depth ≤ c.max_depth
    · have hnw := runWave_no_waveStart c w frontier st depth
      simp only [waveStarts] at hnw
      have hrec := ih (runWave c w st frontier depth).1
        (pySet ((runWave c w st frontier depth).2.2.filter
          (fun u => decide (u ∉ (runWave c w st frontier depth).1.visited))))
        (depth + 1)
      simp only [waveStarts] at hrec
      simp only [crawlLoop, if_pos hg, waveStarts, List.filterMap_cons,
        List.filterMap_append]
      rw [hnw]
      simp only [List.nil_append]
      constructor
      · apply List.chain'_cons'.mpr
        constructor
        · intro y hy
          have hsub : st.visited ⊆ (runWave c w st frontier depth).1.visited :=
            fun x hx => runWave_visited_sub c w frontier st depth x hx
          exact fun x hx => hrec.2 y hy (hsub hx)
        · exact hrec.1
      · intro y hy
        simp at hy
        subst hy
        exact fun x hx => hx
    · constructor
      · simp [crawlLoop, if_neg hg, waveStarts]
      · intro y hy; simp [crawlLoop, if_neg hg, waveStarts] at hy

theorem crawlLoop_frontier_excl (c : Crawler) (w : World) :
    ∀ (fuel : Nat) (st : CrawlState) (frontier : List String) (depth : Nat),
      (∀ u ∈ frontier, u ∉ st.visited) →
      ∀ x ∈ waveStarts (crawlLoop c w fuel st frontier depth).2,
        ∀ u ∈ x.2.2, u ∉ x.2.1 := by
  intro fuel
  induction fuel with
  | zero => intro st frontier depth hf x hx; simp [crawlLoop, waveStarts] at hx
  | succ n ih =>
    intro st frontier depth hf x hx
    by_cases hg : frontier ≠ [] ∧ st.visited.length < c.max_pages ∧
        depth ≤ c.max_depth
    · have hnw := runWave_no_waveStart c w frontier st depth
      simp only [waveStarts] at hnw
      simp only [crawlLoop, if_pos hg, waveStarts, List.filterMap_cons,
        List.filterMap_append] at hx
      rw [hnw] at hx
      simp at hx
      rcases hx with hx | hx
      · subst hx
        exact hf
      · refine ih (runWave c w st frontier depth).1 _ (depth + 1) ?_ x
          (by simpa [waveStarts] using hx)
        intro u hu
        have hu2 := (mem_pySet u _).mp hu
        have h3 := List.mem_filter.mp hu2
        simpa using h3.2
    · simp [crawlLoop, if_neg hg, waveStarts] at hx

/-- The wave loop is insensitive to excess fuel: any fuel covering the
remaining depth budget computes the same run. -/
theorem crawlLoop_fuel_congr (c : Crawler) (w : World) :
    ∀ (f1 f2 : Nat) (st : CrawlState) (frontier : List String) (depth : Nat),
      c.max_depth + 1 ≤ depth + f1 → c.max_depth + 1 ≤ depth + f2 →
      crawlLoop c w f1 st frontier depth = crawlLoop c w f2 st frontier depth := by
  intro f1
  induction f1 with
  | zero =>
    intro f2 st frontier depth h1 h2
    cases f2 with
    | zero => rfl
    | succ m =>
      have hd : ¬ depth ≤ c.max_depth := by omega
      have hg : ¬ (frontier ≠ [] ∧ st.visited.length < c.max_pages ∧
          depth ≤ c.max_depth) := fun hh => hd hh.2.2
      simp [crawlLoop, if_neg hg]
  | succ n ih =>
    intro f2 st frontier depth h1 h2
    cases f2 with
    | zero =>
      have hd : ¬ depth ≤ c.max_depth := by omega
      have hg : ¬ (frontier ≠ [] ∧ st.visited.length < c.max_pages ∧
          depth ≤ c.max_depth) := fun hh => hd hh.2.2
      simp [crawlLoop, if_neg hg]
    | succ m =>
      by_cases hg : frontier ≠ [] ∧ st.visited.length < c.max_pages ∧
          depth ≤ c.max_depth
      · simp only [crawlLoop, if_pos hg]
        rw [ih m (runWave c w st frontier depth).1
          (pySet ((runWave c w st frontier depth).2.2.filter
            (fun u => decide (u ∉ (runWave c w st frontier depth).1.visited))))
          (depth + 1) (by omega) (by omega)]
      · simp only [crawlLoop, if_neg hg]

/-! ### Claim C1 -/

/-- Concrete run for C1: max_pages = 1, five distinct seed URLs, every URL
allowed by robots, no MapTiler findings, every page fetch failing. -/
def exC1World : World :=
  { origin := fun _ => "https://a.test"
    robots := fun _ => some { can_fetch := fun _ _ => true }
    inspect := fun _ => none
    fetchPage := fun _ => none
    extract_links := fun _ _ => [] }

def exC1Crawler : Crawler := { max_pages := 1, max_depth := 3, concurrency := 5 }

def exC1Seeds : List String := ["u1", "u2", "u3", "u4", "u5"]

/-- Claim C1 is false on the code: with max_pages = 1 and five distinct seed
URLs the wave claims its whole frontier, so all five URLs are dispatched,
all five claims succeed and total_pages_crawled is 5, exceeding max_pages. -/
theorem spec_C1_cex :
    (save_results (crawl exC1Crawler exC1World exC1Seeds).1).total_pages_crawled = 5 ∧
    exC1Crawler.max_pages = 1 ∧
    evCount (isClaimMark "u1") (crawl exC1Crawler exC1World exC1Seeds).2 = 1 ∧
    evCount (isClaimMark "u2") (crawl exC1Crawler exC1World exC1Seeds).2 = 1 ∧
    evCount (isDispatchMark "u3") (crawl exC1Crawler exC1World exC1Seeds).2 = 1 := by
  decide

/-- Claim C1 (amended): a wave starts only while the visited set is strictly
below max_pages and its depth is at most max_depth, and every dispatch
happens at a depth of at most max_depth; but no per-wave bound of
max_pages - |visited| on new claims exists, so the wave claims its entire
frontier and total_pages_crawled can exceed max_pages (with max_pages = 1
and five distinct seeds, all five URLs are dispatched and claimed). -/
theorem spec_C1 (c : Crawler) (w : World) (seeds : List String) :
    (∀ x ∈ waveStarts (crawl c w seeds).2,
      x.2.1.length < c.max_pages ∧ x.1 ≤ c.max_depth) ∧
    (∀ v dd, Event.dispatched v dd ∈ (crawl c w seeds).2 → dd ≤ c.max_depth) := by
  constructor
  · exact crawlLoop_waveStart_guard c w (c.max_depth + 1) initState (pySet seeds) 0
  · exact fun v dd h =>
      crawlLoop_dispatch_le c w (c.max_depth + 1) initState (pySet seeds) 0 v dd h

theorem spec_C1_witness :
    (([] : List String).length < exC1Crawler.max_pages ∧
      (0 : Nat) ≤ exC1Crawler.max_depth) ∧
    (0 : Nat) ≤ exC1Crawler.max_depth :=
  ⟨(spec_C1 exC1Crawler exC1World exC1Seeds).1 (0, [], exC1Seeds) (by decide),
   (spec_C1 exC1Crawler exC1World exC1Seeds).2 "u1" 0 (by decide)⟩

/-! ### Claim C2 -/

/-- Concrete run for C2: the robots policy of the shared origin disallows X;
A links to X and B, B links to X again, so X surfaces in two successive
frontiers without ever being claimed. -/
def exC2World : World :=
  { origin := fun _ => "https://a.test"
    robots := fun _ => some { can_fetch := fun _ url => url != "X" }
    inspect := fun _ => none
    fetchPage := fun u => some (true, u)
    extract_links := fun u _ =>
      if u = "A" then ["X", "B"] else if u = "B" then ["X"] else [] }

def exC2Crawler : Crawler := { max_pages := 10, max_depth := 2, concurrency := 5 }

/-- Claim C2 is false on the code as stated: a robots-disallowed URL is never
added to the visited set, so when later pages link to it again it is
dispatched again in a later wave — here X is dispatched in two waves (and
claimed in neither). -/
theorem spec_C2_cex :
    evCount (isDispatchMark "X") (crawl exC2Crawler exC2World ["A"]).2 = 2 ∧
    evCount (isClaimMark "X") (crawl exC2Crawler exC2World ["A"]).2 = 0 := by
  decide

/-- Claim C2 (amended): across a whole crawl run every URL is claimed — and
hence processed past the claim — at most once; a URL that is skipped (for
example by the politeness policy) may be dispatched again in later waves,
but each such dispatch drops it without processing. -/
theorem spec_C2 (c : Crawler) (w : World) (seeds : List String) (u : String) :
    evCount (isClaimMark u) (crawl c w seeds).2 ≤ 1 :=
  crawl_claimed_le_one c w seeds u

/-! ### Claim C8 -/

/-- Claim C8: every crawl run terminates structurally — the wave loop runs at
most max_depth + 1 waves, the wave depths are exactly 0, 1, 2, …, the
visited-set snapshots at successive wave starts grow monotonically, every
wave's frontier excludes all URLs already visited at its start, no URL is
claimed (reprocessed) more than once, and the fuelled loop is insensitive
to any extra fuel beyond max_depth + 1, which is exactly termination of the
unbounded while loop. -/
theorem spec_C8 (c : Crawler) (w : World) (seeds : List String) :
    (waveStarts (crawl c w seeds).2).length ≤ c.max_depth + 1 ∧
    (waveStarts (crawl c w seeds).2).map (fun x => x.1) =
      List.range (waveStarts (crawl c w seeds).2).length ∧
    List.Chain' (fun a b => a.2.1 ⊆ b.2.1) (waveStarts (crawl c w seeds).2) ∧
    (∀ x ∈ waveStarts (crawl c w seeds).2, ∀ u ∈ x.2.2, u ∉ x.2.1) ∧
    (∀ u, evCount (isClaimMark u) (crawl c w seeds).2 ≤ 1) ∧
    (∀ extra, crawlLoop c w (c.max_depth + 1 + extra) initState (pySet seeds) 0 =
      crawl c w seeds) := by
  refine ⟨?_, ?_, ?_, ?_, ?_, ?_⟩
  · exact crawlLoop_waveStarts_len c w (c.max_depth + 1) initState (pySet seeds) 0
  · rw [List.range_eq_range']
    exact crawlLoop_waveStarts_depths c w (c.max_depth + 1) initState (pySet seeds) 0
  · exact (crawlLoop_waveStarts_chain c w (c.max_depth + 1) initState
      (pySet seeds) 0).1
  · exact crawlLoop_frontier_excl c w (c.max_depth + 1) initState (pySet seeds) 0
      (fun u hu => by simp [initState])
  · exact fun u => crawl_claimed_le_one c w seeds u
  · intro extra
    exact crawlLoop_fuel_congr c w (c.max_depth + 1 + extra) (c.max_depth + 1)
      initState (pySet seeds) 0 (by omega) (by omega)

/-- Concrete run for the C8 witness. -/
def exC8World : World :=
  { origin := fun _ => "https://a.test"
    robots := fun _ => some { can_fetch := fun _ _ => true }
    inspect := fun _ => none
    fetchPage := fun _ => none
    extract_links := fun _ _ => [] }

def exC8Crawler : Crawler := { max_pages := 4, max_depth := 2, concurrency := 5 }

theorem spec_C8_witness : ("s" : String) ∉ ([] : List String) :=
  (spec_C8 exC8Crawler exC8World ["s"]).2.2.2.1 (0, [], ["s"]) (by decide) "s"
    (by decide)

/-! ### Claim C3 -/

/-- Concrete run for C3: the inspector returns an error finding for the only
seeded URL. -/
def exC3World : World :=
  { origin := fun _ => "https://a.test"
    robots := fun _ => some { can_fetch := fun _ _ => true }
    inspect := fun u => some (CheckOutcome.errorResult u "timeout")
    fetchPage := fun _ => none
    extract_links := fun _ _ => [] }

def exC3Crawler : Crawler := { max_pages := 5, max_depth := 1, concurrency := 5 }

/-- Claim C3 is false on the code: an error finding returned by the inspector
is not appended to the crawler's result list (the append is guarded on a
truthy uses_maptiler, which the error dictionary lacks), so the final
report's results list is empty while the URL still counts in
total_pages_crawled. -/
theorem spec_C3_cex :
    (save_results (crawl exC3Crawler exC3World ["E"]).1).results = [] ∧
    (save_results (crawl exC3Crawler exC3World ["E"]).1).total_pages_crawled = 1 ∧
    (save_results (crawl exC3Crawler exC3World ["E"]).1).maptiler_pages_found = 0 := by
  decide

/-- Claim C3 (amended): error findings are dropped from the aggregated
results — every entry of the final report's results list is a positive
finding — while the report still lists total_pages_crawled (the size of the
visited set, counting failed URLs) separately from maptiler_pages_found
(the number of positive findings). -/
theorem spec_C3 (c : Crawler) (w : World) (seeds : List String) :
    (save_results (crawl c w seeds).1).total_pages_crawled =
      (crawl c w seeds).1.visited.length ∧
    (save_results (crawl c w seeds).1).maptiler_pages_found =
      (crawl c w seeds).1.results.length ∧
    ∀ r ∈ (save_results (crawl c w seeds).1).results, r.usesMaptiler = true := by
  refine ⟨rfl, rfl, ?_⟩
  intro r hr
  exact crawl_results_good c w seeds r hr

/-- Concrete run for the C3 witness: a positive finding is aggregated. -/
def exC3wWorld : World :=
  { origin := fun _ => "https://a.test"
    robots := fun _ => some { can_fetch := fun _ _ => true }
    inspect := fun u => some (CheckOutcome.found u (some "leaflet") ["ind"] false [])
    fetchPage := fun _ => none
    extract_links := fun _ _ => [] }

theorem spec_C3_witness :
    (CheckOutcome.found "P" (some "leaflet") ["ind"] false []).usesMaptiler = true :=
  (spec_C3 exC3Crawler exC3wWorld ["P"]).2.2
    (CheckOutcome.found "P" (some "leaflet") ["ind"] false []) (by decide)

/-! ### Claim C4 -/

/-- Claim C4: a URL whose processing fails (the inspector returns an error
finding, or the page fetch raises) is recovered locally — the worker
returns normally, the URL is in the visited set and adds one to
total_pages_crawled, a failed page fetch contributes no links, and any
later dispatch of the URL returns immediately without reprocessing it. -/
theorem spec_C4 (c : Crawler) (w : World) (st : CrawlState) (u : String) (d : Nat)
    (hd : ¬(d > c.max_depth ∨ u ∈ st.visited))
    (hallow : (can_fetch w st u).2.2 = true)
    (_hfail : (∃ msg, w.inspect u = some (CheckOutcome.errorResult u msg)) ∨
      w.fetchPage u = none) :
    u ∈ (crawl_url c w st u d).1.visited ∧
    (crawl_url c w st u d).1.visited.length = st.visited.length + 1 ∧
    (w.fetchPage u = none → (crawl_url c w st u d).2.2 = []) ∧
    (∀ st2 d2, u ∈ st2.visited →
      crawl_url c w st2 u d2 = (st2, [Event.dispatched u d2], [])) := by
  rcases crawl_url_cases c w st u d with
    ⟨heq, h1⟩ | ⟨h1, hcf, heq⟩ | ⟨h1, hcf, hvis, hrc, hres, hevs⟩
  · exact absurd h1 hd
  · rw [hallow] at hcf
    exact absurd hcf (by simp)
  · refine ⟨?_, ?_, ?_, ?_⟩
    · rw [hvis]
      exact List.mem_cons_self u _
    · rw [hvis, can_fetch_visited]
      simp
    · intro hf
      simp only [crawl_url, if_neg hd]
      rcases hcf2 : can_fetch w st u with ⟨st1, evs1, allowed⟩
      have : allowed = true := by rw [hcf2] at hcf; exact hcf
      subst this
      simp [hf]
    · intro st2 d2 hmem
      simp [crawl_url, Or.inr hmem]

/-- Concrete inputs for the C4 witness. -/
def exC4World : World :=
  { origin := fun _ => "https://a.test"
    robots := fun _ => some { can_fetch := fun _ _ => true }
    inspect := fun u => some (CheckOutcome.errorResult u "boom")
    fetchPage := fun _ => none
    extract_links := fun _ _ => [] }

def exC4Crawler : Crawler := { max_pages := 10, max_depth := 3, concurrency := 5 }

theorem spec_C4_witness :
    "E" ∈ (crawl_url exC4Crawler exC4World initState "E" 0).1.visited ∧
    (crawl_url exC4Crawler exC4World initState "E" 0).1.visited.length =
      initState.visited.length + 1 := by
  have h := spec_C4 exC4Crawler exC4World initState "E" 0 (by decide)
    (by decide) (Or.inl ⟨"boom", rfl⟩)
  exact ⟨h.1, h.2.1⟩

/-! ### Claim C5 -/

/-- Concrete run for C5: the robots fetch for the shared origin always fails,
so each of the two seed URLs triggers its own robots fetch and nothing is
cached. -/
def exC5World : World :=
  { origin := fun _ => "https://a.test"
    robots := fun _ => none
    inspect := fun _ => none
    fetchPage := fun _ => none
    extract_links := fun _ _ => [] }

def exC5Crawler : Crawler := { max_pages := 10, max_depth := 0, concurrency := 5 }

/-- Claim C5 is false on the code: on a robots fetch failure nothing is stored
in the cache (the except branch of _get_robots_parser returns None without
caching a permissive default), so a later query for the same origin fetches
again — here the single origin is fetched twice in one run and the cache
stays empty. -/
theorem spec_C5_cex :
    evCount (isRobotsMark "https://a.test")
      (crawl exC5Crawler exC5World ["u1", "u2"]).2 = 2 ∧
    (crawl exC5Crawler exC5World ["u1", "u2"]).1.robotsCache.length = 0 := by
  decide

/-- Claim C5 (amended): the robots document of an origin is fetched at most
once per crawl run provided the fetch can succeed — a successful fetch
stores the parsed policy keyed by origin and every later query reuses the
cached entry; on a fetch failure, however, nothing is cached (the failure
is merely treated permissively by can_fetch), so failing origins can be
fetched repeatedly. -/
theorem spec_C5 (c : Crawler) (w : World) (seeds : List String) (o : String)
    (hrob : (w.robots o).isSome = true) :
    evCount (isRobotsMark o) (crawl c w seeds).2 ≤ 1 :=
  crawl_robots_le_one c w seeds o hrob

/-- Concrete run for the C5 witness: a fetchable origin. -/
def exC5wWorld : World :=
  { origin := fun _ => "https://a.test"
    robots := fun _ => some { can_fetch := fun _ _ => true }
    inspect := fun _ => none
    fetchPage := fun _ => none
    extract_links := fun _ _ => [] }

theorem spec_C5_witness :
    evCount (isRobotsMark "https://a.test")
      (crawl exC5Crawler exC5wWorld ["u1", "u2"]).2 ≤ 1 :=
  spec_C5 exC5Crawler exC5wWorld ["u1", "u2"] "https://a.test" rfl

/-! ### Claim C6 -/

/-- Claim C6: fail-open politeness — if the robots document of a URL's origin
is unreachable (and hence not cached), can_fetch returns true, and such a
URL, when fresh and within the depth bound, is claimed rather than treated
as disallowed; the failure never escapes can_fetch. -/
theorem spec_C6 (c : Crawler) (w : World) (st : CrawlState) (url : String)
    (hcache : st.robotsCache.lookup (w.origin url) = none)
    (hrob : w.robots (w.origin url) = none) :
    (can_fetch w st url).2.2 = true ∧
    (∀ d, ¬(d > c.max_depth ∨ url ∈ st.visited) →
      url ∈ (crawl_url c w st url d).1.visited) := by
  have hcf : (can_fetch w st url).2.2 = true := by
    unfold can_fetch get_robots
    rw [hcache, hrob]
  refine ⟨hcf, ?_⟩
  intro d hd
  rcases crawl_url_cases c w st url d with
    ⟨heq, h1⟩ | ⟨h1, hcf2, heq⟩ | ⟨h1, hcf2, hvis, hrc, hres, hevs⟩
  · exact absurd h1 hd
  · rw [hcf] at hcf2
    exact absurd hcf2 (by simp)
  · rw [hvis]
    exact List.mem_cons_self url _

/-- Concrete inputs for the C6 witness. -/
def exC6World : World :=
  { origin := fun _ => "https://a.test"
    robots := fun _ => none
    inspect := fun _ => none
    fetchPage := fun _ => none
    extract_links := fun _ _ => [] }

def exC6Crawler : Crawler := { max_pages := 10, max_depth := 3, concurrency := 5 }

theorem spec_C6_witness :
    (can_fetch exC6World initState "u").2.2 = true ∧
    "u" ∈ (crawl_url exC6Crawler exC6World initState "u" 0).1.visited :=
  ⟨(spec_C6 exC6Crawler exC6World initState "u" rfl rfl).1,
   (spec_C6 exC6Crawler exC6World initState "u" rfl rfl).2 0 (by decide)⟩

/-! ### Claim C7 -/

/-- Claim C7: a URL disallowed by the politeness policy is skipped without
being claimed — the visited set and the result list are unchanged, the URL
does not count toward total_pages_crawled, it contributes no links, and no
claim, inspection or page-fetch event is emitted for it. -/
theorem spec_C7 (c : Crawler) (w : World) (st : CrawlState) (u : String) (d : Nat)
    (hd : ¬(d > c.max_depth ∨ u ∈ st.visited))
    (hdis : (can_fetch w st u).2.2 = false) :
    (crawl_url c w st u d).1.visited = st.visited ∧
    u ∉ (crawl_url c w st u d).1.visited ∧
    (crawl_url c w st u d).1.results = st.results ∧
    (crawl_url c w st u d).2.2 = [] ∧
    Event.claimed u ∉ (crawl_url c w st u d).2.1 ∧
    Event.inspected u ∉ (crawl_url c w st u d).2.1 ∧
    Event.pageFetch u ∉ (crawl_url c w st u d).2.1 := by
  rcases crawl_url_cases c w st u d with
    ⟨heq, h1⟩ | ⟨h1, hcf, heq⟩ | ⟨h1, hcf, hvis, hrc, hres, hevs⟩
  · exact absurd h1 hd
  · have hnm : u ∉ st.visited := fun hmem => hd (Or.inr hmem)
    have hce := can_fetch_event_mem w st u
    refine ⟨?_, ?_, ?_, ?_, ?_, ?_, ?_⟩
    · rw [heq]
      exact can_fetch_visited w st u
    · rw [heq]
      rw [can_fetch_visited w st u]
      exact hnm
    · rw [heq]
      exact can_fetch_results w st u
    · rw [heq]
    · rw [heq]
      intro hmem
      simp only [List.mem_cons, List.mem_append, List.mem_singleton] at hmem
      rcases hmem with (hmem | hmem) | hmem
      · exact absurd hmem (by simp)
      · exact absurd (hce _ hmem) (by simp)
      · exact absurd hmem (by simp)
    · rw [heq]
      intro hmem
      simp only [List.mem_cons, List.mem_append, List.mem_singleton] at hmem
      rcases hmem with (hmem | hmem) | hmem
      · exact absurd hmem (by simp)
      · exact absurd (hce _ hmem) (by simp)
      · exact absurd hmem (by simp)
    · rw [heq]
      intro hmem
      simp only [List.mem_cons, List.mem_append, List.mem_singleton] at hmem
      rcases hmem with (hmem | hmem) | hmem
      · exact absurd hmem (by simp)
      · exact absurd (hce _ hmem) (by simp)
      · exact absurd hmem (by simp)
  · rw [hdis] at hcf
    exact absurd hcf (by simp)

/-- Concrete inputs for the C7 witness: the robots policy disallows the
private URL seeded below. -/
def exC7World : World :=
  { origin := fun _ => "https://a.test"
    robots := fun _ =>
      some { can_fetch := fun _ url => url != "https://a.test/private/x" }
    inspect := fun _ => none
    fetchPage := fun _ => none
    extract_links := fun _ _ => [] }

def exC7Crawler : Crawler := { max_pages := 10, max_depth := 3, concurrency := 5 }

theorem spec_C7_witness :
    (crawl_url exC7Crawler exC7World initState "https://a.test/private/x" 0).1.visited =
      initState.visited ∧
    "https://a.test/private/x" ∉
      (crawl_url exC7Crawler exC7World initState "https://a.test/private/x" 0).1.visited := by
  have h := spec_C7 exC7Crawler exC7World initState "https://a.test/private/x" 0
    (by decide) (by decide)
  exact ⟨h.1, h.2.1⟩

/-! ### Claim C9 -/

/-- Claim C9: in map_detector.py the analysis reads result['maptiler']['sdk'],
but the detection script populates the maptiler object only with a urls
field; hence for every page that loads and whose script evaluates,
check_page fails with a KeyError on sdk instead of returning the analysis
dictionary. -/
theorem spec_C9 (page : DetectorPage) (url : String) :
    check_page page url = Except.error ("KeyError: sdk") := rfl

/-! ### Claim C10 -/

/-- Lemma: an SDK indicator in the page source forces _check_map_usage to
report no MapTiler usage, whatever other indicators were collected. -/
theorem check_map_usage_sdk (page_source : String) (js : JsVariables)
    (h : sdk_indicators.any (fun i => pyIn i page_source) = true) :
    (check_map_usage page_source js).using_maptiler = false := by
  simp [check_map_usage, h]

/-- Claim C10: check_website returns None both when no MapTiler usage is
detected and when SDK usage is detected (even if other MapTiler indicators
were found), returns the positive dictionary with uses_maptiler on a
detection, returns the error dictionary on an internal fault — so every
value it returns is either None, a positive finding or an error finding —
and the crawler appends only results whose uses_maptiler is truthy, so the
aggregated results hold positive findings exclusively. -/
theorem spec_C10 (site : Website) (url : String) (c : Crawler) (w : World)
    (seeds : List String) :
    (site.loadError = none →
      (check_map_usage site.page_source site.js_variables).using_maptiler = false →
      check_website site url = none) ∧
    (site.loadError = none →
      sdk_indicators.any (fun i => pyIn i site.page_source) = true →
      check_website site url = none) ∧
    (∀ msg, site.loadError = some msg →
      check_website site url = some (CheckOutcome.errorResult url msg)) ∧
    (site.loadError = none →
      (check_map_usage site.page_source site.js_variables).using_maptiler = true →
      check_website site url = some (CheckOutcome.found url
        (check_map_usage site.page_source site.js_variables).library
        (check_map_usage site.page_source site.js_variables).indicators_found
        (check_attribution site
          (check_map_usage site.page_source site.js_variables).library).has_proper_attribution
        (check_attribution site
          (check_map_usage site.page_source site.js_variables).library).issues)) ∧
    (∀ r, check_website site url = some r →
      r.usesMaptiler = true ∨ ∃ msg, r = CheckOutcome.errorResult url msg) ∧
    (∀ r ∈ (crawl c w seeds).1.results, r.usesMaptiler = true) := by
  refine ⟨?_, ?_, ?_, ?_, ?_, ?_⟩
  · intro h1 h2
    simp [check_website, h1, h2]
  · intro h1 h2
    simp [check_website, h1, check_map_usage_sdk site.page_source site.js_variables h2]
  · intro msg hmsg
    simp [check_website, hmsg]
  · intro h1 h2
    simp [check_website, h1, h2]
  · intro r hr
    cases hload : site.loadError with
    | some msg =>
      simp [check_website, hload] at hr
      exact Or.inr ⟨msg, hr.symm⟩
    | none =>
      by_cases hu : (check_map_usage site.page_source site.js_variables).using_maptiler = false
      · simp [check_website, hload, hu] at hr
      · simp [check_website, hload, hu] at hr
        rw [← hr]
        exact Or.inl rfl
  · exact fun r hr => crawl_results_good c w seeds r hr

/-- Concrete site for the C10 witness: the page source carries both a MapTiler
pattern and an SDK indicator. -/
def exC10Site : Website :=
  { page_source := "x api.maptiler.com y @maptiler/sdk z"
    js_variables :=
      { mapUrls := [], tileUrls := []
        libraryInfo :=
          { leaflet := { present := false, version := none, containers := 0 }
            openlayers := { present := false, version := none, containers := 0 } } }
    leafletAttributionTexts := []
    olAttributionTexts := []
    loadError := none }

/-- Concrete crawl for the C10 witness: one positive finding is aggregated. -/
def exC10World : World :=
  { origin := fun _ => "https://a.test"
    robots := fun _ => some { can_fetch := fun _ _ => true }
    inspect := fun u => some (CheckOutcome.found u none [] false [])
    fetchPage := fun _ => none
    extract_links := fun _ _ => [] }

def exC10Crawler : Crawler := { max_pages := 10, max_depth := 1, concurrency := 5 }

theorem spec_C10_witness :
    check_website exC10Site "https://x.test/page" = none ∧
    (CheckOutcome.found "P" none [] false []).usesMaptiler = true :=
  ⟨(spec_C10 exC10Site "https://x.test/page" exC10Crawler exC10World ["P"]).2.1
      rfl (by decide),
   (spec_C10 exC10Site "https://x.test/page" exC10Crawler exC10World ["P"]).2.2.2.2.2
      (CheckOutcome.found "P" none [] false []) (by decide)⟩

end Maptiler
